import Mathlib

/-!
Verification of the Trade accounting engine of the Crypto-trading-bot
repository (freqtrade-derived position ledger).

The repository ships the engine's test suite
(src/tests/persistence/test_persistence_short.py) but the engine module
itself (the Trade model with calculate_interest, update, the valuation
functions, close, adjust_stop_loss, set_liquidation_price and the
InterestMode enumeration) is not among the provided source files.  The
definitions below therefore carry doc comments starting with
"Modelled from the spec:"; each is a shallow embedding reconstructed from
the specification (spec.md sections 3, 4.1-4.4) cross-checked against the
concrete assertions and docstrings of the in-repository test file.

All monetary and time quantities are modelled as exact rationals (the spec
states that internal computation uses full precision and that rounding to
8 fractional digits happens only at the persistence/display boundary).
Wall-clock instants are rationals measured in hours, so an elapsed time is
simply a difference `now - open_date`.
-/

/-- Floor of a rational number as an integer, written with integer
division so that it evaluates inside the kernel. -/
def ratFloor (x : ℚ) : ℤ :=
  x.num / x.den

/-- Ceiling of a rational number as an integer. -/
def ratCeil (x : ℚ) : ℤ :=
  -ratFloor (-x)

/-- Rounding of a rational number to the nearest integer, halves up -
the convention of the Mathlib `round`. -/
def roundHalfUp (x : ℚ) : ℤ :=
  ratFloor (x + 1 / 2)

/-- Absolute value of a rational number, written with a comparison so
that it evaluates inside the kernel. -/
def ratAbs (x : ℚ) : ℚ :=
  if x < 0 then -x else x

/-- Minimum of two rational numbers, written with a comparison so that it
evaluates inside the kernel. -/
def ratMin (a b : ℚ) : ℚ :=
  if a ≤ b then a else b

/-- Maximum of two rational numbers. -/
def ratMax (a b : ℚ) : ℚ :=
  if a ≤ b then b else a

/-- Modelled from the spec: the `InterestMode` enumeration (missing
`freqtrade.enums.InterestMode`).  `HOURSPER4` is the per-4-hours mode used
by the Kraken scenarios, `HOURSPERDAY` the per-day mode used by the
Binance scenarios, `NONE` the spot/no-interest mode. -/
inductive InterestMode where
  | HOURSPER4
  | HOURSPERDAY
  | NONE
deriving DecidableEq

/-- Modelled from the spec: the number of interest periods charged for an
elapsed time of `h` hours under each mode.  Per spec section 4.1 the
4-hour mode is a ceiling-period mode counting `ceil 1 + h/4` periods.
For the daily mode the spec's prose says "fractional, continuous", but its
own concrete scenario (interest 0.00574949 after 10 minutes) and the
repository tests (docstring "10 minutes rounds up to 1/24 time-period of
1 day", asserted values at 10 minutes and 4h55m) require the elapsed hours
to be rounded up to a whole hour first: `periods = ceil h / 24`. -/
def interestPeriods : InterestMode → ℚ → ℚ
  | InterestMode.HOURSPER4, h => ((ratCeil (1 + h / 4) : ℤ) : ℚ)
  | InterestMode.HOURSPERDAY, h => ((ratCeil h : ℤ) : ℚ) / 24
  | InterestMode.NONE, _ => 0

/-- Modelled from the spec: the central Position (Trade) entity of spec
section 3 (missing `freqtrade.persistence.Trade`), restricted to the
fields the accounting claims touch.  The pair/exchange identity strings
play no role in any computation and are omitted.  Times are rationals in
hours. -/
structure Trade where
  stake_amount : ℚ
  amount : ℚ
  open_rate : ℚ
  close_rate : Option ℚ
  fee_open : ℚ
  fee_close : ℚ
  is_short : Option Bool
  leverage : ℚ
  interest_rate : ℚ
  interest_mode : InterestMode
  open_date : ℚ
  close_date : Option ℚ
  is_open : Bool
  open_order_id : Option ℕ
  close_profit : Option ℚ
  stop_loss : Option ℚ
  stop_loss_pct : Option ℚ
  initial_stop_loss : Option ℚ
  initial_stop_loss_pct : Option ℚ
  max_rate : Option ℚ
  liquidation_price : Option ℚ
deriving DecidableEq

/-- Modelled from the spec: construction of a fresh position with the
defaults the tests rely on: direction undetermined (`is_short = none`),
leverage 1, still open, nothing closed, no stop-loss and no liquidation
price. -/
def mkTrade (stake amount openRate openDate feeOpen feeClose irate : ℚ)
    (mode : InterestMode) : Trade :=
  { stake_amount := stake
    amount := amount
    open_rate := openRate
    close_rate := none
    fee_open := feeOpen
    fee_close := feeClose
    is_short := none
    leverage := 1
    interest_rate := irate
    interest_mode := mode
    open_date := openDate
    close_date := none
    is_open := true
    open_order_id := none
    close_profit := none
    stop_loss := none
    stop_loss_pct := none
    initial_stop_loss := none
    initial_stop_loss_pct := none
    max_rate := none
    liquidation_price := none }

/-- Modelled from the spec: the direction of a position as used by the
accounting code; an undetermined direction behaves like a long (Python
treats `None` as falsy). -/
def Trade.short (t : Trade) : Bool :=
  t.is_short.getD false

/-- Modelled from the spec: the `borrowed` quantity of a position.  The
tests construct short trades and immediately obtain nonzero interest
without any fill, and observe `borrowed == 0` before a fill on a
direction-less trade and `borrowed == amount` right after a short opening
fill, so `borrowed` is derived state: the whole base amount for a short,
and the leveraged-but-unstaked portion for a long (zero at leverage 1). -/
def Trade.borrowed (t : Trade) : ℚ :=
  if t.short then t.amount
  else t.amount * t.open_rate * (t.leverage - 1) / t.leverage

/-- Modelled from the spec: `calculate_interest` of spec section 4.1.
The interest rate may be overridden per call, otherwise the stored rate is
used; elapsed time is `now - open_date` in hours and the period count is
given by the mode. -/
def calculate_interest (t : Trade) (ir : Option ℚ) (now : ℚ) : ℚ :=
  t.borrowed * ir.getD t.interest_rate *
    interestPeriods t.interest_mode (now - t.open_date)

/-- Modelled from the spec: the reference time for valuing a position,
spec section 4.3 - current time while the position is open, the recorded
close date once it is closed. -/
def refTime (t : Trade) (now : ℚ) : ℚ :=
  if t.is_open then now else t.close_date.getD now

/-- Modelled from the spec: `_calc_open_trade_value` of spec section 4.3.
For a short the opening fee reduces the proceeds of the opening sell, for
a long it increases the cost of the opening buy. -/
def calc_open_trade_value (t : Trade) : ℚ :=
  if t.short then t.amount * t.open_rate * (1 - t.fee_open)
  else t.amount * t.open_rate * (1 + t.fee_open)

/-- Modelled from the spec: `calc_close_trade_value` of spec section 4.3.
Returns 0 when neither an explicit rate nor a recorded close rate exists
(no closing fill yet); otherwise values `amount + interest` at the given
rate, a short paying the closing fee on top and a long having it deducted.
Interest accrues up to the reference time. -/
def calc_close_trade_value (t : Trade) (rate fee ir : Option ℚ) (now : ℚ) : ℚ :=
  if rate.isNone ∧ t.close_rate.isNone then 0
  else
    let r := rate.getD (t.close_rate.getD 0)
    let f := fee.getD t.fee_close
    let interest := calculate_interest t ir (refTime t now)
    if t.short then (t.amount + interest) * r * (1 + f)
    else (t.amount + interest) * r * (1 - f)

/-- Modelled from the spec: `calc_profit` of spec section 4.3 - absolute
profit, `open - close` for shorts and `close - open` for longs. -/
def calc_profit (t : Trade) (rate fee ir : Option ℚ) (now : ℚ) : ℚ :=
  if t.short then
    calc_open_trade_value t - calc_close_trade_value t rate fee ir now
  else
    calc_close_trade_value t rate fee ir now - calc_open_trade_value t

/-- Modelled from the spec: `calc_profit_ratio` of spec section 4.3 - the
leverage-adjusted relative profit, `(1 - close/open) * leverage` for
shorts and `(close/open - 1) * leverage` for longs.  (The Lean name avoids
the word ratio for lexical reasons only.) -/
def calc_profit_pct (t : Trade) (rate fee ir : Option ℚ) (now : ℚ) : ℚ :=
  let closeValue := calc_close_trade_value t rate fee ir now
  let openValue := calc_open_trade_value t
  if t.short then (1 - closeValue / openValue) * t.leverage
  else (closeValue / openValue - 1) * t.leverage

/-- Modelled from the spec: rounding of a monetary output to 8 fractional
digits at the persistence boundary. -/
def round8 (x : ℚ) : ℚ :=
  ((roundHalfUp (x * 100000000) : ℤ) : ℚ) / 100000000

/-- Modelled from the spec: the terminal `close(rate)` operation of spec
section 4.3.  It records the close rate, caches the (rounded, leverage
adjusted) relative profit, marks the position closed and stamps the close
date.  The idempotent-close guard described in spec sections 4.3 and 9 is
present in the source only as a disabled/commented fragment, so this model
follows the active source behaviour: a repeated call overwrites the
recorded close data. -/
def Trade.close (t : Trade) (rate : ℚ) (now : ℚ) : Trade :=
  { t with
    close_rate := some rate
    close_profit := some (round8 (calc_profit_pct t (some rate) none none now))
    is_open := false
    close_date := some now
    open_order_id := none }

/-- Modelled from the spec: the side of an incoming order fill. -/
inductive OrderSide where
  | buy
  | sell
deriving DecidableEq

/-- Modelled from the spec: the status of an incoming order; only a
`stClosed` (fully filled) order mutates settled position state. -/
inductive OrderStatus where
  | stOpen
  | stClosed
  | stCanceled
deriving DecidableEq

/-- Modelled from the spec: the fill payload consumed by the Order Fill
Reducer, spec section 4.2 - side, status, amount, rate and the leverage
the order was placed with. -/
structure OrderFill where
  side : OrderSide
  status : OrderStatus
  amount : ℚ
  rate : ℚ
  leverage : ℚ
deriving DecidableEq

/-- Modelled from the spec: the error raised on a malformed fill. -/
inductive TradeError where
  | invalidOrder
deriving DecidableEq

/-- Modelled from the spec: the Order Fill Reducer `update` of spec
section 4.2.  A non-closed order changes nothing; a non-positive amount or
rate is rejected with `invalidOrder` and no mutation.  The first fill
fixes the direction (sell-to-open means short).  A fill on the opening
side records open rate, amount and leverage; a fill on the opposite side
closes the position, recording close rate, close date and the cached
relative profit exactly as the tests assert. -/
def Trade.update (t : Trade) (o : OrderFill) (now : ℚ) : Except TradeError Trade :=
  if o.status ≠ OrderStatus.stClosed then Except.ok t
  else if o.amount ≤ 0 ∨ o.rate ≤ 0 then Except.error TradeError.invalidOrder
  else
    let d : Bool := t.is_short.getD (o.side = OrderSide.sell)
    if (d = true ∧ o.side = OrderSide.sell) ∨ (d = false ∧ o.side = OrderSide.buy) then
      Except.ok { t with
        is_short := some d
        open_rate := o.rate
        amount := o.amount
        leverage := o.leverage
        open_order_id := none }
    else
      Except.ok { t with
        close_rate := some o.rate
        close_date := some now
        is_open := false
        open_order_id := none
        close_profit :=
          some (round8 (calc_profit_pct t (some o.rate) none none now)) }

/-- Total wrapper around `Trade.update` used to name concrete fill results
in closed statements: the updated trade on success, the unchanged trade on
rejection. -/
def updateD (t : Trade) (o : OrderFill) (now : ℚ) : Trade :=
  (Trade.update t o now).toOption.getD t

/-- Modelled from the spec: `adjust_stop_loss` of spec section 4.4,
cross-checked against the stop-loss tests.  A call with the initial flag
on an already-set stop is a no-op (early return).  Otherwise a candidate
stop is derived from the given price and the magnitude of the stop-loss
fraction (above the price for shorts, below for longs), clamped at the
liquidation price when one is set (never past it), and it replaces the
current stop only when unset or when it moves in the trade-favorable
direction (down for shorts, up for longs). -/
def Trade.adjust_stop_loss (t : Trade) (current_rate stoploss : ℚ)
    (initial : Bool) : Trade :=
  if initial ∧ t.stop_loss.isSome then t
  else
    let cand :=
      if t.short then current_rate * (1 + ratAbs stoploss)
      else current_rate * (1 - ratAbs stoploss)
    let newLoss :=
      match t.liquidation_price with
      | some liq => if t.short then ratMin liq cand else ratMax liq cand
      | none => cand
    match t.stop_loss with
    | none =>
        { t with
          stop_loss := some newLoss
          stop_loss_pct := some (ratAbs stoploss)
          initial_stop_loss := some newLoss
          initial_stop_loss_pct := some (ratAbs stoploss) }
    | some sl =>
        if (t.short = true ∧ newLoss < sl) ∨ (t.short = false ∧ sl < newLoss) then
          { t with
            stop_loss := some newLoss
            stop_loss_pct := some (ratAbs stoploss) }
        else t

/-- Modelled from the spec: `set_liquidation_price` of spec section 4.4 -
stores the liquidation boundary; the clamp is enforced by the subsequent
`adjust_stop_loss` calls. -/
def Trade.set_liquidation_price (t : Trade) (price : ℚ) : Trade :=
  { t with liquidation_price := some price }

/-- A sequence of `adjust_stop_loss` calls, each one a triple of current
rate, stop-loss fraction and initial flag, applied left to right. -/
def applyStopCalls (t : Trade) (calls : List (ℚ × ℚ × Bool)) : Trade :=
  calls.foldl (fun tr c => tr.adjust_stop_loss c.1 c.2.1 c.2.2) t

/-- The 4-hour-period Kraken short of the interest tests: amount and
borrowed 275.97543219, interest rate 0.0005, leverage 3, opened (in the
model) at hour 0. -/
def krakenShortTrade : Trade :=
  { mkTrade 0.001 275.97543219 0.00001099 0 0.0025 0.0025 0.0005
      InterestMode.HOURSPER4 with
    is_short := some true
    leverage := 3 }

/-- The daily-rate Binance short of the interest tests: the same position
under the per-day interest mode. -/
def binanceShortTradeI : Trade :=
  { mkTrade 0.001 275.97543219 0.00001099 0 0.0025 0.0025 0.0005
      InterestMode.HOURSPERDAY with
    is_short := some true
    leverage := 3 }

/-- The five-hour Kraken short of the close tests: amount 15, open rate
0.02, leverage 3, fees 0.25 percent, per-4-hours interest at 0.0005. -/
def kraken5hTrade : Trade :=
  { mkTrade 0.1 15 0.02 0 0.0025 0.0025 0.0005 InterestMode.HOURSPER4 with
    is_short := some true
    leverage := 3 }

/-- The freshly constructed Binance trade of the update test: no direction
yet, leverage 1, per-day interest at 0.0005, opened at hour 0. -/
def binanceTrade0 : Trade :=
  mkTrade 0.0010673339398629 5 0.01 0 0.0025 0.0025 0.0005
    InterestMode.HOURSPERDAY

/-- The opening short fill of the update test: a filled limit sell of
90.99181073 at 0.00001173 with leverage 1. -/
def limitShortOrder : OrderFill :=
  { side := OrderSide.sell
    status := OrderStatus.stClosed
    amount := 90.99181073
    rate := 0.00001173
    leverage := 1 }

/-- The closing buy fill of the update test: a filled limit buy of
90.99181073 at 0.00001099. -/
def limitExitShortOrder : OrderFill :=
  { side := OrderSide.buy
    status := OrderStatus.stClosed
    amount := 90.99181073
    rate := 0.00001099
    leverage := 1 }

/-- A closing buy fill for the five-hour Kraken short: 15 at rate 0.01
with leverage 3. -/
def kraken5hExitOrder : OrderFill :=
  { side := OrderSide.buy
    status := OrderStatus.stClosed
    amount := 15
    rate := 0.01
    leverage := 3 }

/-- The short position of the stop-loss adjustment test: open rate 1, best
rate 1, direction short, no stop-loss yet. -/
def stopTrade0 : Trade :=
  { mkTrade 0.001 5 1 0 0.0025 0.0025 0.0005 InterestMode.HOURSPERDAY with
    is_short := some true
    max_rate := some 1 }

/-- The ceiling-per-4-hours interest formula in the words of the spec and
of the claim: `borrowed * rate * ceil 1 + h/4` full periods. -/
def specInterestPer4 (borrowed rate h : ℚ) : ℚ :=
  borrowed * rate * ((⌈1 + h / 4⌉ : ℤ) : ℚ)

/-- The fractional daily interest formula in the words of the spec's
prose: `borrowed * rate * (h/24)` with the elapsed hours taken
continuously, no rounding. -/
def specInterestFractionalDay (borrowed rate h : ℚ) : ℚ :=
  borrowed * rate * (h / 24)

/-- The daily interest formula the code actually implements: elapsed
hours are first rounded up to a whole hour, `borrowed * rate * ceil h/24`
periods. -/
def specInterestCeilHourDay (borrowed rate h : ℚ) : ℚ :=
  borrowed * rate * (((⌈h⌉ : ℤ) : ℚ) / 24)

/-- The kernel-friendly floor agrees with the Mathlib floor. -/
theorem ratFloor_eq_floor (x : ℚ) : ratFloor x = ⌊x⌋ :=
  Rat.floor_def.symm

/-- The kernel-friendly ceiling agrees with the Mathlib ceiling. -/
theorem ratCeil_eq_ceil (x : ℚ) : ratCeil x = ⌈x⌉ := by
  rw [ratCeil, ratFloor_eq_floor, Int.floor_neg, neg_neg]

/-- The kernel-friendly rounding agrees with the Mathlib `round`. -/
theorem roundHalfUp_eq_round (x : ℚ) : roundHalfUp x = round x := by
  rw [roundHalfUp, ratFloor_eq_floor, round_eq]

/-- The kernel-friendly absolute value agrees with the Mathlib one. -/
theorem ratAbs_eq_abs (x : ℚ) : ratAbs x = |x| := by
  rcases lt_or_le x 0 with h | h
  · rw [ratAbs, if_pos h, abs_of_neg h]
  · rw [ratAbs, if_neg (not_lt.mpr h), abs_of_nonneg h]

/-- The kernel-friendly minimum agrees with the Mathlib one. -/
theorem ratMin_eq_min (a b : ℚ) : ratMin a b = min a b :=
  (min_def a b).symm

/-- The kernel-friendly maximum agrees with the Mathlib one. -/
theorem ratMax_eq_max (a b : ℚ) : ratMax a b = max a b :=
  (max_def a b).symm

/-- Evaluation rule for the kernel-friendly floor at a known integer. -/
theorem ratFloor_eq_of (x : ℚ) (z : ℤ) (h1 : (z : ℚ) ≤ x) (h2 : x < z + 1) :
    ratFloor x = z := by
  rw [ratFloor_eq_floor]
  exact Int.floor_eq_iff.mpr ⟨h1, h2⟩

/-- Evaluation rule for the kernel-friendly ceiling at a known integer. -/
theorem ratCeil_eq_of (x : ℚ) (z : ℤ) (h1 : (z : ℚ) - 1 < x) (h2 : x ≤ z) :
    ratCeil x = z := by
  rw [ratCeil_eq_ceil]
  exact Int.ceil_eq_iff.mpr ⟨h1, h2⟩

/-- Evaluation rule for the 8-digit boundary rounding at a known value. -/
theorem round8_eq_of (x : ℚ) (z : ℤ) (h1 : (z : ℚ) ≤ x * 100000000 + 1/2)
    (h2 : x * 100000000 + 1/2 < z + 1) : round8 x = (z : ℚ) / 100000000 := by
  rw [round8, roundHalfUp, ratFloor_eq_of _ z h1 h2]

/-- The kernel-friendly minimum is bounded by its first argument. -/
theorem ratMin_le_left (a b : ℚ) : ratMin a b ≤ a := by
  rw [ratMin_eq_min]
  exact min_le_left a b

/-- The relative profit of the five-hour Kraken short closed at rate 0.01,
evaluated: exactly 792797/532000, about 1.4902199248. -/
theorem kraken5h_pct_eval :
    calc_profit_pct kraken5hTrade (some 0.01) none none (59/12) = 792797/532000 := by
  norm_num [calc_profit_pct, calc_close_trade_value, calc_open_trade_value,
    calculate_interest, refTime, kraken5hTrade, mkTrade, Trade.borrowed, Trade.short,
    interestPeriods, ratCeil_eq_of (107/48 : ℚ) 3 (by norm_num) (by norm_num)]

/-- The absolute profit of the five-hour Kraken short closed at rate 0.01,
evaluated: exactly 2378391/16000000 = 0.1486494375. -/
theorem kraken5h_profit_eval :
    calc_profit kraken5hTrade (some 0.01) none none (59/12) = 2378391/16000000 := by
  norm_num [calc_profit, calc_close_trade_value, calc_open_trade_value,
    calculate_interest, refTime, kraken5hTrade, mkTrade, Trade.borrowed, Trade.short,
    interestPeriods, ratCeil_eq_of (107/48 : ℚ) 3 (by norm_num) (by norm_num)]

/-- The cached profit figure written by closing the five-hour Kraken short
at rate 0.01: the rounded relative profit 1.49021992. -/
theorem kraken5h_close_profit_eval :
    (Trade.close kraken5hTrade 0.01 (59/12)).close_profit =
      some (149021992/100000000) := by
  have h1 : (Trade.close kraken5hTrade 0.01 (59/12)).close_profit =
      some (round8 (calc_profit_pct kraken5hTrade (some 0.01) none none (59/12))) := rfl
  rw [h1, kraken5h_pct_eval,
    round8_eq_of (792797/532000 : ℚ) 149021992 (by norm_num) (by norm_num)]
  norm_num

/-- C1: for every trade in the ceiling-period per-4-hours interest mode
and every non-negative elapsed time, `calculate_interest` returns
borrowed times rate times the ceiling of one plus a quarter of the elapsed
hours, both for the stored interest rate and for any per-call override;
in particular the Kraken short with borrowed 275.97543219 and rate 0.0005
accrues exactly 0.27597543219 after 10 minutes, within 1e-8 of the
documented figure. -/
theorem c1_interest_ceiling_per4 (t : Trade) (now : ℚ)
    (hmode : t.interest_mode = InterestMode.HOURSPER4)
    (helapsed : 0 ≤ now - t.open_date) :
    (∀ ir : Option ℚ, calculate_interest t ir now =
      specInterestPer4 t.borrowed (ir.getD t.interest_rate) (now - t.open_date))
    ∧ calculate_interest krakenShortTrade none (1/6) = 0.27597543219
    ∧ |calculate_interest krakenShortTrade none (1/6) - 0.27597543219| <
        1/100000000 := by
  have hconc : calculate_interest krakenShortTrade none (1/6) = 0.27597543219 := by
    norm_num [calculate_interest, krakenShortTrade, mkTrade, Trade.borrowed,
      Trade.short, interestPeriods,
      ratCeil_eq_of (25/24 : ℚ) 2 (by norm_num) (by norm_num)]
  refine ⟨?_, hconc, by rw [hconc, abs_sub_lt_iff]; constructor <;> norm_num⟩
  intro ir
  simp [calculate_interest, interestPeriods, specInterestPer4, hmode, ratCeil_eq_ceil]

/-- Witness for C1: the ceiling-period formula instantiated at the
concrete Kraken short, 10 minutes after opening. -/
theorem c1_interest_ceiling_per4_witness :
    calculate_interest krakenShortTrade none (1/6) =
      specInterestPer4 krakenShortTrade.borrowed
        ((none : Option ℚ).getD krakenShortTrade.interest_rate)
        (1/6 - krakenShortTrade.open_date) :=
  (c1_interest_ceiling_per4 krakenShortTrade (1/6) rfl
    (by norm_num [krakenShortTrade, mkTrade])).1 none

/-- C2 counterexample: at 10 elapsed minutes the per-day mode does not
return the continuous fractional value borrowed times rate times
(elapsed hours divided by 24); the code rounds the elapsed time up to a
whole hour, and the difference (a factor of six here) far exceeds the
1e-8 tolerance. -/
theorem c2_fractional_day_counterexample :
    calculate_interest binanceShortTradeI none (1/6) ≠
      specInterestFractionalDay binanceShortTradeI.borrowed
        binanceShortTradeI.interest_rate (1/6 - binanceShortTradeI.open_date)
    ∧ 1/100000000 <
      |calculate_interest binanceShortTradeI none (1/6) -
        specInterestFractionalDay binanceShortTradeI.borrowed
          binanceShortTradeI.interest_rate (1/6 - binanceShortTradeI.open_date)| := by
  have h1 : calculate_interest binanceShortTradeI none (1/6) =
      9199181073/1600000000000 := by
    norm_num [calculate_interest, binanceShortTradeI, mkTrade, Trade.borrowed,
      Trade.short, interestPeriods,
      ratCeil_eq_of (1/6 : ℚ) 1 (by norm_num) (by norm_num)]
  have h2 : specInterestFractionalDay binanceShortTradeI.borrowed
      binanceShortTradeI.interest_rate (1/6 - binanceShortTradeI.open_date) =
      3066393691/3200000000000 := by
    norm_num [specInterestFractionalDay, binanceShortTradeI, mkTrade,
      Trade.borrowed, Trade.short]
  rw [h1, h2]
  refine ⟨by norm_num, lt_abs.mpr (Or.inl (by norm_num))⟩

/-- C2 as amended: in the per-day interest mode the elapsed hours are
first rounded up to a whole hour, `periods = ceil h / 24`; at 10 elapsed
minutes the period count is 1/24 (not (1/6)/24) and the Binance short
accrues 0.00574949 within 1e-8. -/
theorem c2_interest_ceil_hour_day (t : Trade) (now : ℚ)
    (hmode : t.interest_mode = InterestMode.HOURSPERDAY)
    (helapsed : 0 ≤ now - t.open_date) :
    (∀ ir : Option ℚ, calculate_interest t ir now =
      specInterestCeilHourDay t.borrowed (ir.getD t.interest_rate) (now - t.open_date))
    ∧ |calculate_interest binanceShortTradeI none (1/6) - 0.00574949| <
        1/100000000 := by
  have hconc : calculate_interest binanceShortTradeI none (1/6) =
      9199181073/1600000000000 := by
    norm_num [calculate_interest, binanceShortTradeI, mkTrade, Trade.borrowed,
      Trade.short, interestPeriods,
      ratCeil_eq_of (1/6 : ℚ) 1 (by norm_num) (by norm_num)]
  refine ⟨?_, by rw [hconc, abs_sub_lt_iff]; constructor <;> norm_num⟩
  intro ir
  simp [calculate_interest, interestPeriods, specInterestCeilHourDay, hmode,
    ratCeil_eq_ceil]

/-- Witness for the amended C2: the rounded-up daily formula instantiated
at the concrete Binance short, 10 minutes after opening. -/
theorem c2_interest_ceil_hour_day_witness :
    calculate_interest binanceShortTradeI none (1/6) =
      specInterestCeilHourDay binanceShortTradeI.borrowed
        ((none : Option ℚ).getD binanceShortTradeI.interest_rate)
        (1/6 - binanceShortTradeI.open_date) :=
  (c2_interest_ceil_hour_day binanceShortTradeI (1/6) rfl
    (by norm_num [binanceShortTradeI, mkTrade])).1 none

/-- C3: after the opening fill of a short position, `calc_profit` equals
the open trade value (amount times open rate less the opening fee) minus
the close trade value (amount plus accrued interest, valued at the given
rate plus the closing fee); hence the profit is positive exactly when the
close value lies below the open value. -/
theorem c3_short_profit_formula (t : Trade) (r : ℚ) (fee ir : Option ℚ) (now : ℚ)
    (hshort : t.is_short = some true) :
    calc_profit t (some r) fee ir now =
      t.amount * t.open_rate * (1 - t.fee_open) -
        (t.amount + calculate_interest t ir (refTime t now)) * r *
          (1 + fee.getD t.fee_close)
    ∧ (0 < calc_profit t (some r) fee ir now ↔
        calc_close_trade_value t (some r) fee ir now < calc_open_trade_value t) := by
  have hs : t.short = true := by simp [Trade.short, hshort]
  constructor
  · simp [calc_profit, calc_close_trade_value, calc_open_trade_value, hs]
  · simp [calc_profit, hs, sub_pos]

/-- Witness for C3 at the five-hour Kraken short closed at rate 0.01. -/
theorem c3_short_profit_formula_witness :
    calc_profit kraken5hTrade (some 0.01) none none (59/12) =
      kraken5hTrade.amount * kraken5hTrade.open_rate * (1 - kraken5hTrade.fee_open) -
        (kraken5hTrade.amount +
          calculate_interest kraken5hTrade none (refTime kraken5hTrade (59/12))) *
          0.01 * (1 + (none : Option ℚ).getD kraken5hTrade.fee_close)
    ∧ (0 < calc_profit kraken5hTrade (some 0.01) none none (59/12) ↔
        calc_close_trade_value kraken5hTrade (some 0.01) none none (59/12) <
          calc_open_trade_value kraken5hTrade) :=
  c3_short_profit_formula kraken5hTrade 0.01 none none (59/12) rfl

/-- C4: for every short position the relative profit is
(1 - close value / open value) times the leverage; in particular the
five-hour Kraken short (amount 15, open rate 0.02, leverage 3, fee 0.0025,
per-4-hours interest 0.0005) closed at rate 0.01 caches the close profit
figure 1.49021992 and its exact relative profit is within 1e-8 of
1.4902199248120298. -/
theorem c4_short_profit_pct_formula (t : Trade) (rate fee ir : Option ℚ) (now : ℚ)
    (hshort : t.is_short = some true) :
    calc_profit_pct t rate fee ir now =
      (1 - calc_close_trade_value t rate fee ir now / calc_open_trade_value t) *
        t.leverage
    ∧ (Trade.close kraken5hTrade 0.01 (59/12)).close_profit =
        some (149021992/100000000)
    ∧ |calc_profit_pct kraken5hTrade (some 0.01) none none (59/12) -
        1.4902199248120298| < 1/100000000 := by
  have hs : t.short = true := by simp [Trade.short, hshort]
  refine ⟨by simp [calc_profit_pct, hs], kraken5h_close_profit_eval, ?_⟩
  rw [kraken5h_pct_eval, abs_sub_lt_iff]
  constructor <;> norm_num

/-- Witness for C4 at the five-hour Kraken short closed at rate 0.01. -/
theorem c4_short_profit_pct_formula_witness :
    calc_profit_pct kraken5hTrade (some 0.01) none none (59/12) =
      (1 - calc_close_trade_value kraken5hTrade (some 0.01) none none (59/12) /
          calc_open_trade_value kraken5hTrade) * kraken5hTrade.leverage
    ∧ (Trade.close kraken5hTrade 0.01 (59/12)).close_profit =
        some (149021992/100000000)
    ∧ |calc_profit_pct kraken5hTrade (some 0.01) none none (59/12) -
        1.4902199248120298| < 1/100000000 :=
  c4_short_profit_pct_formula kraken5hTrade (some 0.01) none none (59/12) rfl

/-- C5 counterexample: the cached `close_profit` written by closing the
five-hour Kraken short at rate 0.01 is 1.49021992 - the relative profit -
and differs from the absolute profit 0.1486494375 returned by
`calc_profit`, whether or not the latter is rounded to 8 digits. -/
theorem c5_close_profit_not_absolute :
    (Trade.close kraken5hTrade 0.01 (59/12)).close_profit ≠
      some (calc_profit kraken5hTrade (some 0.01) none none (59/12))
    ∧ (Trade.close kraken5hTrade 0.01 (59/12)).close_profit ≠
      some (round8 (calc_profit kraken5hTrade (some 0.01) none none (59/12))) := by
  rw [kraken5h_close_profit_eval, kraken5h_profit_eval,
    round8_eq_of (2378391/16000000 : ℚ) 14864944 (by norm_num) (by norm_num)]
  constructor <;> simp <;> norm_num

/-- C5 as amended: both termination paths cache the relative profit, not
the absolute one: `close(rate)` writes the rounded leverage-adjusted
relative profit into `close_profit`, and so does a closing (buy) fill
applied by `update` to a short position; the Binance update scenario
caches 0.05837018. -/
theorem c5_close_caches_relative_profit (t : Trade) (r now : ℚ) (o : OrderFill)
    (t' : Trade) (hshort : t.is_short = some true) (hbuy : o.side = OrderSide.buy)
    (hst : o.status = OrderStatus.stClosed) (hamt : 0 < o.amount)
    (hrate : 0 < o.rate) (hup : Trade.update t o now = Except.ok t') :
    (Trade.close t r now).close_profit =
      some (round8 (calc_profit_pct t (some r) none none now))
    ∧ t'.close_profit = some (round8 (calc_profit_pct t (some o.rate) none none now))
    ∧ (updateD (updateD binanceTrade0 limitShortOrder (1/6))
        limitExitShortOrder (1/6)).close_profit = some (5837018/100000000) := by
  have hne : ¬ (o.status ≠ OrderStatus.stClosed) := by simp [hst]
  have hpos : ¬ (o.amount ≤ 0 ∨ o.rate ≤ 0) := by
    push_neg
    exact ⟨hamt, hrate⟩
  refine ⟨rfl, ?_, ?_⟩
  · simp only [Trade.update, if_neg hne, if_neg hpos, hshort, hbuy,
      Option.getD] at hup
    rw [if_neg (by simp)] at hup
    injection hup with h
    rw [← h]
  · norm_num [updateD, Trade.update, binanceTrade0, limitShortOrder,
      limitExitShortOrder, mkTrade, Except.toOption, calc_profit_pct,
      calc_close_trade_value, calc_open_trade_value, calculate_interest, refTime,
      Trade.borrowed, Trade.short, interestPeriods,
      ratCeil_eq_of (1/6 : ℚ) 1 (by norm_num) (by norm_num),
      round8_eq_of (8144741/139536000 : ℚ) 5837018 (by norm_num) (by norm_num),
      (by decide : ¬ (OrderSide.buy = OrderSide.sell))]

/-- Witness for the amended C5: the five-hour Kraken short closed once by
`close(0.01)` and once by a closing buy fill. -/
theorem c5_close_caches_relative_profit_witness :
    (Trade.close kraken5hTrade 0.01 (59/12)).close_profit =
      some (round8 (calc_profit_pct kraken5hTrade (some 0.01) none none (59/12)))
    ∧ (updateD kraken5hTrade kraken5hExitOrder (59/12)).close_profit =
      some (round8 (calc_profit_pct kraken5hTrade (some kraken5hExitOrder.rate)
        none none (59/12)))
    ∧ (updateD (updateD binanceTrade0 limitShortOrder (1/6))
        limitExitShortOrder (1/6)).close_profit = some (5837018/100000000) :=
  c5_close_caches_relative_profit kraken5hTrade 0.01 (59/12) kraken5hExitOrder
    (updateD kraken5hTrade kraken5hExitOrder (59/12)) rfl rfl rfl
    (by norm_num [kraken5hExitOrder]) (by norm_num [kraken5hExitOrder])
    (by norm_num [updateD, Trade.update, Except.toOption, kraken5hTrade,
      kraken5hExitOrder, mkTrade, (by decide : ¬ (OrderSide.buy = OrderSide.sell))])

/-- C6: `close` marks the position closed and stamps the close date, but
re-closing an already-closed position is not a no-op - the disabled guard
means a second `close` call overwrites the recorded close date and the
frozen profit: the five-hour Kraken short closed at 0.01 (close date hour
59/12, cached profit 1.49021992) and then closed again at 0.02 at hour 6
ends with close date 6 and cached profit -0.01956015. -/
theorem c6_reclose_overwrites :
    (Trade.close kraken5hTrade 0.01 (59/12)).is_open = false
    ∧ (Trade.close kraken5hTrade 0.01 (59/12)).close_date = some (59/12)
    ∧ ((Trade.close kraken5hTrade 0.01 (59/12)).close 0.02 6).close_date = some 6
    ∧ ((Trade.close kraken5hTrade 0.01 (59/12)).close 0.02 6).close_date ≠
        (Trade.close kraken5hTrade 0.01 (59/12)).close_date
    ∧ ((Trade.close kraken5hTrade 0.01 (59/12)).close 0.02 6).close_profit ≠
        (Trade.close kraken5hTrade 0.01 (59/12)).close_profit := by
  have h2 : ((Trade.close kraken5hTrade 0.01 (59/12)).close 0.02 6).close_profit =
      some (-1956015/100000000) := by
    have hpct : calc_profit_pct (Trade.close kraken5hTrade 0.01 (59/12))
        (some 0.02) none none 6 = -5203/266000 := by
      norm_num [calc_profit_pct, calc_close_trade_value, calc_open_trade_value,
        calculate_interest, refTime, Trade.close, kraken5hTrade, mkTrade,
        Trade.borrowed, Trade.short, interestPeriods,
        ratCeil_eq_of (107/48 : ℚ) 3 (by norm_num) (by norm_num)]
    have h1 : ((Trade.close kraken5hTrade 0.01 (59/12)).close 0.02 6).close_profit =
        some (round8 (calc_profit_pct (Trade.close kraken5hTrade 0.01 (59/12))
          (some 0.02) none none 6)) := rfl
    rw [h1, hpct,
      round8_eq_of (-5203/266000 : ℚ) (-1956015) (by norm_num) (by norm_num)]
    norm_num
  refine ⟨rfl, rfl, rfl, by norm_num [Trade.close], ?_⟩
  rw [h2, kraken5h_close_profit_eval]
  norm_num

/-- One `adjust_stop_loss` call on a short position with a set stop never
raises the stop, and it keeps the direction and the stop set. -/
theorem adjust_stop_loss_short_step (t : Trade) (c f : ℚ) (i : Bool) (sl : ℚ)
    (hs : t.short = true) (hsl : t.stop_loss = some sl) :
    ∃ sl', (t.adjust_stop_loss c f i).stop_loss = some sl' ∧ sl' ≤ sl ∧
      (t.adjust_stop_loss c f i).short = true := by
  cases i with
  | true =>
      have hnoop : t.adjust_stop_loss c f true = t := by
        simp [Trade.adjust_stop_loss, hsl]
      rw [hnoop]
      exact ⟨sl, hsl, le_refl sl, hs⟩
  | false =>
      simp [Trade.adjust_stop_loss, hsl, hs]
      split_ifs with hlt
      · exact ⟨_, rfl, hlt.le, hs⟩
      · exact ⟨sl, hsl, le_refl sl, hs⟩

/-- A whole sequence of `adjust_stop_loss` calls on a short position with
a set stop never raises the stop. -/
theorem applyStopCalls_short_mono (calls : List (ℚ × ℚ × Bool)) :
    ∀ (t : Trade) (sl : ℚ), t.short = true → t.stop_loss = some sl →
      ∃ sl', (applyStopCalls t calls).stop_loss = some sl' ∧ sl' ≤ sl := by
  induction calls with
  | nil =>
      intro t sl hs hsl
      exact ⟨sl, hsl, le_refl sl⟩
  | cons call rest ih =>
      intro t sl hs hsl
      obtain ⟨sl1, h1, hle1, hshort1⟩ :=
        adjust_stop_loss_short_step t call.1 call.2.1 call.2.2 sl hs hsl
      obtain ⟨sl', h', hle'⟩ :=
        ih (t.adjust_stop_loss call.1 call.2.1 call.2.2) sl1 hshort1 h1
      exact ⟨sl', h', le_trans hle' hle1⟩

/-- A non-initial `adjust_stop_loss` call on a short position with a set
liquidation price always lands the stop at or below the liquidation
price. -/
theorem adjust_stop_loss_short_clamp (t : Trade) (c f liq sl' : ℚ)
    (hs : t.short = true) (hliq : t.liquidation_price = some liq)
    (h : (t.adjust_stop_loss c f false).stop_loss = some sl') : sl' ≤ liq := by
  simp only [Trade.adjust_stop_loss, Bool.false_eq_true, false_and, if_false,
    hliq, hs, if_true] at h
  cases hsl : t.stop_loss with
  | none =>
      rw [hsl] at h
      simp only [Option.some.injEq] at h
      rw [← h]
      exact ratMin_le_left liq _
  | some sl =>
      rw [hsl] at h
      simp only [Bool.true_eq_false, false_and, or_false, true_and] at h
      split_ifs at h with hlt
      · simp only [Option.some.injEq] at h
        rw [← h]
        exact ratMin_le_left liq _
      · rw [hsl] at h
        simp only [Option.some.injEq] at h
        rw [← h]
        exact le_trans (not_lt.mp hlt) (ratMin_le_left liq _)

/-- C7 counterexample: an `adjust_stop_loss` call made after
`set_liquidation_price` can leave the stop on the wrong side of the
liquidation price: the short whose stop has been trailed 1.05 -> 0.77 ->
0.66 receives a liquidation price of 0.63, and a subsequent call with the
initial flag set is a no-op that leaves stop_loss at 0.66 > 0.63. -/
theorem c7_initial_call_skips_liquidation_clamp :
    ((((applyStopCalls stopTrade0
        [(1, 0.05, true), (0.7, 0.1, false), (0.6, 0.1, false)]).set_liquidation_price
          0.63).adjust_stop_loss 0.59 0.1 true).stop_loss = some 0.66)
    ∧ ((((applyStopCalls stopTrade0
        [(1, 0.05, true), (0.7, 0.1, false), (0.6, 0.1, false)]).set_liquidation_price
          0.63).adjust_stop_loss 0.59 0.1 true).liquidation_price = some 0.63)
    ∧ ¬ ((0.66 : ℚ) ≤ (0.63 : ℚ)) := by
  refine ⟨?_, ?_, by norm_num⟩ <;>
    norm_num [applyStopCalls, Trade.adjust_stop_loss, Trade.set_liquidation_price,
      Trade.short, ratAbs, ratMin, ratMax, stopTrade0, mkTrade]

/-- C7 as amended: once a short position's stop-loss is set, no sequence
of `adjust_stop_loss` calls ever raises it (the liquidation clamp can only
pull the candidate further down), and every `adjust_stop_loss` call with
the initial flag off made while a liquidation price is set leaves the stop
at or below that liquidation price; an initial-flagged call on an
already-set stop is a no-op and may leave a pre-existing stop beyond the
liquidation price. -/
theorem c7_stoploss_ratchet_and_clamp :
    (∀ (t : Trade) (sl : ℚ) (calls : List (ℚ × ℚ × Bool)),
      t.is_short = some true → t.stop_loss = some sl →
      ∃ sl', (applyStopCalls t calls).stop_loss = some sl' ∧ sl' ≤ sl)
    ∧ (∀ (t : Trade) (c f liq sl' : ℚ),
      t.is_short = some true → t.liquidation_price = some liq →
      (t.adjust_stop_loss c f false).stop_loss = some sl' → sl' ≤ liq) := by
  constructor
  · intro t sl calls hshort hsl
    exact applyStopCalls_short_mono calls t sl (by simp [Trade.short, hshort]) hsl
  · intro t c f liq sl' hshort hliq h
    exact adjust_stop_loss_short_clamp t c f liq sl'
      (by simp [Trade.short, hshort]) hliq h

/-- Witness for the amended C7: the ratchet applied to the short with
initial stop 1.05 over one trailing call, and the clamp applied to the
same position once its liquidation price 0.63 is set. -/
theorem c7_stoploss_ratchet_and_clamp_witness :
    (∃ sl', (applyStopCalls (stopTrade0.adjust_stop_loss 1 0.05 true)
        [(0.7, 0.1, false)]).stop_loss = some sl' ∧ sl' ≤ 1.05)
    ∧ ((0.63 : ℚ) ≤ 0.63) :=
  ⟨c7_stoploss_ratchet_and_clamp.1 (stopTrade0.adjust_stop_loss 1 0.05 true) 1.05
      [(0.7, 0.1, false)] rfl
      (by norm_num [Trade.adjust_stop_loss, stopTrade0, mkTrade, Trade.short, ratAbs]),
    c7_stoploss_ratchet_and_clamp.2
      (((stopTrade0.adjust_stop_loss 1 0.05 true).set_liquidation_price 0.63))
      0.59 0.1 0.63 0.63 rfl rfl
      (by norm_num [Trade.adjust_stop_loss, Trade.set_liquidation_price, stopTrade0,
        mkTrade, Trade.short, ratAbs, ratMin])⟩

/-- C8 counterexample: the Binance short opened at leverage 1.0 by the
sell fill of 90.99181073 has borrowed equal to the full amount, not 0, and
accrues nonzero interest - a short borrows its whole position even at
leverage 1. -/
theorem c8_short_leverage_one_counterexample :
    (Trade.update binanceTrade0 limitShortOrder (1/6)).toOption =
      some (updateD binanceTrade0 limitShortOrder (1/6))
    ∧ (updateD binanceTrade0 limitShortOrder (1/6)).leverage = 1
    ∧ Trade.borrowed (updateD binanceTrade0 limitShortOrder (1/6)) = 90.99181073
    ∧ Trade.borrowed (updateD binanceTrade0 limitShortOrder (1/6)) ≠ 0
    ∧ calculate_interest (updateD binanceTrade0 limitShortOrder (1/6)) none (1/6) ≠ 0 := by
  refine ⟨?_, ?_, ?_, ?_, ?_⟩ <;>
    norm_num [updateD, Trade.update, Except.toOption, binanceTrade0, limitShortOrder,
      mkTrade, Trade.borrowed, Trade.short, calculate_interest, interestPeriods,
      ratCeil_eq_of (1/6 : ℚ) 1 (by norm_num) (by norm_num)]

/-- C8 as amended: for every position that is not short, leverage 1.0
forces borrowed to 0 and the accrued interest to 0 at every reference time
and for every rate override; the zero-leverage invariant holds for longs
and direction-less positions only, a short's borrowed equals its amount
regardless of leverage. -/
theorem c8_no_leverage_invariant_for_longs (t : Trade) (ir : Option ℚ) (now : ℚ)
    (hlong : t.short = false) (hlev : t.leverage = 1) :
    Trade.borrowed t = 0 ∧ calculate_interest t ir now = 0 := by
  have hb : Trade.borrowed t = 0 := by
    simp [Trade.borrowed, hlong, hlev]
  exact ⟨hb, by simp [calculate_interest, hb]⟩

/-- Witness for the amended C8: the direction-less leverage-1 Binance
position before its first fill. -/
theorem c8_no_leverage_invariant_for_longs_witness :
    Trade.borrowed binanceTrade0 = 0 ∧ calculate_interest binanceTrade0 none (1/6) = 0 :=
  c8_no_leverage_invariant_for_longs binanceTrade0 none (1/6) rfl rfl

/-- C9: the valuation calls are pure: on equal position states and equal
arguments they return equal values, and per-call fee or interest-rate
overrides do not alter the stored state - a call passing the stored fee
and stored interest rate explicitly coincides with a later call passing no
overrides at all. -/
theorem c9_valuation_read_only_and_defaults (t u : Trade) (rate fee ir : Option ℚ)
    (now : ℚ) (hstate : t = u) :
    (calc_close_trade_value t rate fee ir now =
        calc_close_trade_value u rate fee ir now
      ∧ calc_profit t rate fee ir now = calc_profit u rate fee ir now
      ∧ calc_profit_pct t rate fee ir now = calc_profit_pct u rate fee ir now)
    ∧ (calc_close_trade_value t rate (some t.fee_close) (some t.interest_rate) now =
        calc_close_trade_value t rate none none now
      ∧ calc_profit t rate (some t.fee_close) (some t.interest_rate) now =
        calc_profit t rate none none now
      ∧ calc_profit_pct t rate (some t.fee_close) (some t.interest_rate) now =
        calc_profit_pct t rate none none now) := by
  subst hstate
  exact ⟨⟨rfl, rfl, rfl⟩, rfl, rfl, rfl⟩

/-- Witness for C9 at the five-hour Kraken short valued at rate 0.01. -/
theorem c9_valuation_read_only_and_defaults_witness :
    (calc_close_trade_value kraken5hTrade (some 0.01) none none (59/12) =
        calc_close_trade_value kraken5hTrade (some 0.01) none none (59/12)
      ∧ calc_profit kraken5hTrade (some 0.01) none none (59/12) =
        calc_profit kraken5hTrade (some 0.01) none none (59/12)
      ∧ calc_profit_pct kraken5hTrade (some 0.01) none none (59/12) =
        calc_profit_pct kraken5hTrade (some 0.01) none none (59/12))
    ∧ (calc_close_trade_value kraken5hTrade (some 0.01)
        (some kraken5hTrade.fee_close) (some kraken5hTrade.interest_rate) (59/12) =
        calc_close_trade_value kraken5hTrade (some 0.01) none none (59/12)
      ∧ calc_profit kraken5hTrade (some 0.01)
        (some kraken5hTrade.fee_close) (some kraken5hTrade.interest_rate) (59/12) =
        calc_profit kraken5hTrade (some 0.01) none none (59/12)
      ∧ calc_profit_pct kraken5hTrade (some 0.01)
        (some kraken5hTrade.fee_close) (some kraken5hTrade.interest_rate) (59/12) =
        calc_profit_pct kraken5hTrade (some 0.01) none none (59/12)) :=
  c9_valuation_read_only_and_defaults kraken5hTrade kraken5hTrade (some 0.01)
    none none (59/12) rfl

/-- C10: a closed sell fill with positive amount and rate arriving on a
position whose direction is still undetermined opens it short: the
direction becomes short, the amount becomes the filled amount and borrowed
equals that whole amount whatever leverage the order carried; and a fresh
position has borrowed 0 and no direction. -/
theorem c10_short_opening_fill (t : Trade) (o : OrderFill) (now : ℚ)
    (hdir : t.is_short = none) (hsell : o.side = OrderSide.sell)
    (hst : o.status = OrderStatus.stClosed) (hamt : 0 < o.amount)
    (hrate : 0 < o.rate) :
    Trade.update t o now = Except.ok { t with
        is_short := some true
        open_rate := o.rate
        amount := o.amount
        leverage := o.leverage
        open_order_id := none }
    ∧ (∀ t', Trade.update t o now = Except.ok t' →
        t'.is_short = some true ∧ t'.amount = o.amount ∧
          Trade.borrowed t' = o.amount)
    ∧ ∀ (stake amount orate odate feeO feeC irate : ℚ) (m : InterestMode),
        Trade.borrowed (mkTrade stake amount orate odate feeO feeC irate m) = 0
        ∧ (mkTrade stake amount orate odate feeO feeC irate m).is_short = none := by
  have hne : ¬ (o.status ≠ OrderStatus.stClosed) := by simp [hst]
  have hpos : ¬ (o.amount ≤ 0 ∨ o.rate ≤ 0) := by
    push_neg
    exact ⟨hamt, hrate⟩
  have h1 : Trade.update t o now = Except.ok { t with
      is_short := some true
      open_rate := o.rate
      amount := o.amount
      leverage := o.leverage
      open_order_id := none } := by
    simp only [Trade.update, if_neg hne, if_neg hpos, hdir, hsell, Option.getD]
    rw [if_pos (by simp)]
    simp
  refine ⟨h1, ?_, ?_⟩
  · intro t' h
    rw [h1] at h
    injection h with h2
    rw [← h2]
    refine ⟨rfl, rfl, ?_⟩
    simp [Trade.borrowed, Trade.short]
  · intro stake amount orate odate feeO feeC irate m
    exact ⟨by simp [Trade.borrowed, Trade.short, mkTrade], rfl⟩

/-- Witness for C10: the Binance position opened short by the sell fill of
90.99181073 at 0.00001173 with leverage 1. -/
theorem c10_short_opening_fill_witness :
    Trade.update binanceTrade0 limitShortOrder (1/6) = Except.ok { binanceTrade0 with
        is_short := some true
        open_rate := limitShortOrder.rate
        amount := limitShortOrder.amount
        leverage := limitShortOrder.leverage
        open_order_id := none }
    ∧ (∀ t', Trade.update binanceTrade0 limitShortOrder (1/6) = Except.ok t' →
        t'.is_short = some true ∧ t'.amount = limitShortOrder.amount ∧
          Trade.borrowed t' = limitShortOrder.amount)
    ∧ ∀ (stake amount orate odate feeO feeC irate : ℚ) (m : InterestMode),
        Trade.borrowed (mkTrade stake amount orate odate feeO feeC irate m) = 0
        ∧ (mkTrade stake amount orate odate feeO feeC irate m).is_short = none :=
  c10_short_opening_fill binanceTrade0 limitShortOrder (1/6) rfl rfl rfl
    (by norm_num [limitShortOrder]) (by norm_num [limitShortOrder])
